import Mathlib

/-!
Verification development for the ReportingChat repository.

The Python sources are shallowly embedded as executable Lean definitions:
pure functions become Lean functions over `List Char` / `ℚ` / association
lists; the pandas `DataFrame` is modelled column-oriented as a list of
named columns of cells; calls to external services (the Gemini API,
SQLite/SQLAlchemy engines, `pandas.to_datetime`) are passed in as explicit
parameters describing their outcome, so that the code under verification
is exactly the repository's own logic.  Floating point arithmetic is
modelled with `ℚ` (the guards and data flow of the source do not depend on
float rounding); `round(x, n)` is modelled as half-up rounding on `ℚ`.
-/

set_option allowUnsafeReducibility true

attribute [local semireducible] Rat.mul Rat.add Rat.sub Rat.inv

namespace ReportingChat

/-! ## Character and string utilities (models of Python `str` operations) -/

/-- ASCII whitespace, the characters matched by Python `str.strip` and `\s`. -/
def isWsChar (c : Char) : Bool :=
  c == ' ' || c == '\t' || c == '\n' || c == '\r' || c == Char.ofNat 11 || c == Char.ofNat 12

/-- Word characters for the regex `\b` boundary: `[A-Za-z0-9_]`. -/
def isWordChar (c : Char) : Bool :=
  ('a' ≤ c && c ≤ 'z') || ('A' ≤ c && c ≤ 'Z') || ('0' ≤ c && c ≤ '9') || c == '_'

/-- Model of Python `str.strip()` on a character list. -/
def trimChars (l : List Char) : List Char :=
  ((((l.dropWhile isWsChar).reverse).dropWhile isWsChar).reverse)

/-- `pat` is a prefix of `l` (exact characters). -/
def isPrefixCL : List Char → List Char → Bool
  | [], _ => true
  | _ :: _, [] => false
  | a :: as, b :: bs => a == b && isPrefixCL as bs

/-- `pat` is a prefix of `l`, comparing case-insensitively (ASCII). -/
def isPrefixCI : List Char → List Char → Bool
  | [], _ => true
  | _ :: _, [] => false
  | a :: as, b :: bs => a.toLower == b.toLower && isPrefixCI as bs

/-- Substring containment, the model of Python `needle in haystack`. -/
def containsSub (needle : List Char) : List Char → Bool
  | [] => isPrefixCL needle []
  | c :: rest => isPrefixCL needle (c :: rest) || containsSub needle rest

def dropWsList (l : List Char) : List Char := l.dropWhile isWsChar

/-- One pass of Python `re.sub(pat ++ \s*, '', text, flags=IGNORECASE)` for a
literal pattern `pat`: every (case-insensitive) occurrence of `pat` together
with the whitespace run following it is removed; scanning resumes after each
match.  Fuel-based structural recursion so that the kernel can evaluate it. -/
def stripPatAux (pat : List Char) : Nat → List Char → List Char
  | 0, l => l
  | _ + 1, [] => []
  | fuel + 1, c :: cs =>
    if isPrefixCI pat (c :: cs) then
      stripPatAux pat fuel (dropWsList (List.drop pat.length (c :: cs)))
    else
      c :: stripPatAux pat fuel cs

def stripPatCI (pat : List Char) (l : List Char) : List Char :=
  stripPatAux pat l.length l

/-- Model of the clean-up in `generate_sql_from_nl` (sql_query_generator.py):
`strip()`, then `re.sub(r'```sql\s*', '', ·, flags=IGNORECASE)`, then
`re.sub(r'```\s*', '', ·)`, then `strip()`. -/
def cleanSqlText (l : List Char) : List Char :=
  trimChars (stripPatCI ("```".data) (stripPatCI ("```sql".data) (trimChars l)))

/-- Model of `sql_query.upper().startswith('SELECT')`. -/
def startsWithSelectCI (l : List Char) : Bool :=
  isPrefixCL ("SELECT".data) (l.map Char.toUpper)

/-- `generate_sql_from_nl` (sql_query_generator.py lines 85-151), with the two
external effects made explicit: `apiKey` is the result of `get_api_key()` and
`response` is the outcome of `model.generate_content(prompt)` (`.error` =
the call raised, `.ok text` = the service returned `text`).  A missing key,
a raised exception, or a cleaned text that does not case-insensitively start
with `SELECT` all yield `none`; otherwise the cleaned query is returned. -/
def generate_sql_from_nl (apiKey : Option String) (response : Except String String) :
    Option String :=
  match apiKey with
  | none => none
  | some _ =>
    match response with
    | .error _ => none
    | .ok text =>
      let cleaned := cleanSqlText text.data
      if startsWithSelectCI cleaned then some (String.mk cleaned) else none

/-! ## Query classifier (`is_data_retrieval_query`, sql_query_generator.py 212-251) -/

/-- Element of a (tiny) regex pattern: literal characters, `\b`, `\s+`, `.*`. -/
inductive PatElem
  | lit (cs : List Char)
  | wb
  | wsPlus
  | anyStar
deriving DecidableEq

def patElemSize : PatElem → Nat
  | .lit cs => cs.length + 1
  | _ => 1

def patSize (p : List PatElem) : Nat := (p.map patElemSize).sum

/-- Is there a word boundary between `prev` and `next` (ends are non-word)? -/
def boundaryOk (prev next : Option Char) : Bool :=
  (prev.elim false isWordChar) != (next.elim false isWordChar)

/-- Fuel-based matcher: does the pattern match a prefix of `s`, where `prev`
is the character immediately before `s` (for `\b`)?  Disjunctive, so the
boolean result is exactly "some regex match exists here". -/
def matchPat : Nat → List PatElem → Option Char → List Char → Bool
  | 0, _, _, _ => false
  | _ + 1, [], _, _ => true
  | fuel + 1, .wb :: ps, prev, s => boundaryOk prev s.head? && matchPat fuel ps prev s
  | fuel + 1, .lit [] :: ps, prev, s => matchPat fuel ps prev s
  | fuel + 1, .lit (c :: cs) :: ps, _, s =>
    match s with
    | [] => false
    | d :: ds => c == d && matchPat fuel (.lit cs :: ps) (some d) ds
  | fuel + 1, .wsPlus :: ps, _, s =>
    match s with
    | [] => false
    | c :: cs =>
      isWsChar c && (matchPat fuel ps (some c) cs || matchPat fuel (.wsPlus :: ps) (some c) cs)
  | fuel + 1, .anyStar :: ps, prev, s =>
    matchPat fuel ps prev s ||
      (match s with
       | [] => false
       | c :: cs => matchPat fuel (.anyStar :: ps) (some c) cs)

def searchAux (fuel : Nat) (p : List PatElem) : Option Char → List Char → Bool
  | prev, [] => matchPat fuel p prev []
  | prev, c :: cs => matchPat fuel p prev (c :: cs) || searchAux fuel p (some c) cs

/-- Model of `re.search(pattern, s) is not None`. -/
def searchPat (p : List PatElem) (s : List Char) : Bool :=
  searchAux (patSize p + s.length + 1) p none s

/-- The `retrieval_patterns` regex list, element by element. -/
def retrievalPats : List (List PatElem) :=
  [ [.wb, .lit ("list".data), .wb]
  , [.wb, .lit ("show".data), .wb]
  , [.wb, .lit ("what are".data), .wb]
  , [.wb, .lit ("how many".data), .wb]
  , [.wb, .lit ("count".data), .wb]
  , [.wb, .lit ("total".data), .wb]
  , [.wb, .lit ("sum".data), .wb]
  , [.wb, .lit ("average".data), .wb]
  , [.wb, .lit ("avg".data), .wb]
  , [.wb, .lit ("min".data), .wb]
  , [.wb, .lit ("max".data), .wb]
  , [.wb, .lit ("which".data), .wb]
  , [.wb, .lit ("all".data), .wb]
  , [.wb, .lit ("find".data), .wb]
  , [.wb, .lit ("get".data), .wb]
  , [.wb, .lit ("retrieve".data), .wb]
  , [.wb, .lit ("display".data), .wb]
  , [.wb, .lit ("what is the".data), .wb]
  , [.wb, .lit ("what are the".data), .wb]
  , [.wb, .lit ("names".data), .wb, .anyStar, .wb, .lit ("campaign".data)]
  , [.wb, .lit ("campaign".data), .anyStar, .wb, .lit ("names".data), .wb]
  , [.wb, .lit ("what".data), .wsPlus, .lit ("campaigns".data)]
  , [.wb, .lit ("campaign".data), .wsPlus, .lit ("names".data)] ]

/-- The `analysis_keywords` list (checked by plain substring containment). -/
def analysisKeywords : List String :=
  [ "analyze", "analysis", "insight", "recommend", "suggest"
  , "optimize", "improve", "best performing", "worst performing"
  , "why", "explain", "compare", "trend", "pattern", "strategy"
  , "should i", "what should", "how can", "advice", "guidance"
  , "performance", "optimization", "recommendation" ]

/-- `question.lower().strip()`. -/
def normQ (q : String) : List Char := trimChars (q.data.map Char.toLower)

def analysisSignal (ql : List Char) : Bool :=
  analysisKeywords.any (fun k => containsSub k.data ql)

def retrievalSignal (ql : List Char) : Bool :=
  retrievalPats.any (fun p => searchPat p ql)

/-- `is_data_retrieval_query` (sql_query_generator.py 212-251): analysis
keywords are checked first and short-circuit to `false`; then the retrieval
regexes; the default is `false` (Analysis). -/
def is_data_retrieval_query (q : String) : Bool :=
  if analysisSignal (normQ q) then false
  else if retrievalSignal (normQ q) then true
  else false

/-! ## Data model: cells, column-oriented DataFrame, column mapping -/

/-- One scalar in the dataset: a number, a text value, pandas `NA`/`NaN`, or a
parsed datetime (`dt`, produced by the modelled `pandas.to_datetime`). -/
inductive Cell
  | num (q : ℚ)
  | str (s : String)
  | na
  | dt (t : Int)
deriving DecidableEq

/-- A DataFrame, column-oriented: a list of named columns. -/
abbrev DF : Type := List (String × List Cell)

/-- The column mapping: association list from standard name to the detected
physical column name (`none` if undetected), in insertion order. -/
abbrev Mapping : Type := List (String × Option String)

def mapLookup : Mapping → String → Option String
  | [], _ => none
  | p :: rest, std => if p.1 = std then p.2 else mapLookup rest std

def getCol : DF → String → Option (List Cell)
  | [], _ => none
  | p :: rest, c => if p.1 = c then some p.2 else getCol rest c

/-- In-place overwrite of an existing column's values. -/
def setCol (df : DF) (c : String) (vals : List Cell) : DF :=
  df.map (fun p => if p.1 = c then (p.1, vals) else p)

/-- pandas `df[c] = vals`: replace the column if present, else append it. -/
def putCol (df : DF) (c : String) (vals : List Cell) : DF :=
  if (getCol df c).isSome then setCol df c vals
  else df ++ [(c, vals)]

/-- `len(df)`: the number of rows (length of the first column). -/
def numRows (df : DF) : Nat :=
  match df with
  | [] => 0
  | c :: _ => c.2.length

def cellStr : Cell → Option String
  | .str s => some s
  | _ => none

def isStrCell : Cell → Bool
  | .str _ => true
  | _ => false

def cellNum : Cell → Option ℚ
  | .num q => some q
  | _ => none

/-- pandas `Series.sum()` with default `skipna=True` on a numeric column:
`NA` contributes nothing.  (Columns containing text are treated separately by
each caller, reflecting the `try/except` around the arithmetic.) -/
def sumQ (cells : List Cell) : ℚ :=
  cells.foldl (fun acc c => acc + ((cellNum c).getD 0)) 0

def stdFive : List String := ["impressions", "clicks", "cost", "conversions", "revenue"]

/-- Python `round(q, 2)` (modelled half-up on `ℚ`). -/
def round2 (q : ℚ) : ℚ := ((round (q * 100) : ℤ) : ℚ) / 100

/-- Python `round(q, 3)` (modelled half-up on `ℚ`). -/
def round3 (q : ℚ) : ℚ := ((round (q * 1000) : ℤ) : ℚ) / 1000

/-! ## Metric registry (`METRIC_FORMULAS`, config.py 18-44)

Every formula in the registry has the shape
`(num / den * scale) if den > 0 else 0`, with the denominator being the
second entry of `required_columns`. -/

structure MetricDef where
  numCol : String
  denCol : String
  scale : ℚ

def metricFormula (md : MetricDef) (num den : ℚ) : ℚ :=
  if den > 0 then num / den * md.scale else 0

/-- `METRIC_FORMULAS`: CTR, CPC, CPA, ROAS, CVR with their required columns. -/
def METRIC_FORMULAS : List (String × MetricDef) :=
  [ ("CTR", ⟨"clicks", "impressions", 100⟩)
  , ("CPC", ⟨"cost", "clicks", 1⟩)
  , ("CPA", ⟨"cost", "conversions", 1⟩)
  , ("ROAS", ⟨"revenue", "cost", 1⟩)
  , ("CVR", ⟨"conversions", "clicks", 100⟩) ]

def metricLookup (name : String) : Option MetricDef :=
  (METRIC_FORMULAS.find? (fun p => p.1 == name)).map (fun p => p.2)

/-- `compute_metric` (metrics_calculator.py 10-51): requires every
`required_column` to be mapped; sums each mapped column of the DataFrame and
applies the formula to the sums, rounding to 2 decimals.  A missing physical
column or a text cell in a summed column makes the `try` block raise
(`KeyError` / arithmetic on concatenated strings), returning `none`. -/
def compute_metric (df : DF) (m : Mapping) (name : String) : Option ℚ :=
  match metricLookup name with
  | none => none
  | some md =>
    match mapLookup m md.numCol, mapLookup m md.denCol with
    | some aN, some aD =>
      match getCol df aN, getCol df aD with
      | some cN, some cD =>
        if cN.any isStrCell || cD.any isStrCell then none
        else some (round2 (metricFormula md (sumQ cN) (sumQ cD)))
      | _, _ => none
    | _, _ => none

/-- `compute_all_metrics` (metrics_calculator.py 54-67). -/
def compute_all_metrics (df : DF) (m : Mapping) : List (String × Option ℚ) :=
  METRIC_FORMULAS.map (fun p => (p.1, compute_metric df m p.1))

/-- `get_aggregate_metrics` (metrics_calculator.py 70-86): for each mapped
standard numeric column, `float(df[col].sum())`, with any exception (missing
column, non-numeric sum) giving `0.0`. -/
def get_aggregate_metrics (df : DF) (m : Mapping) : List (String × ℚ) :=
  m.filterMap (fun p =>
    match p.2 with
    | some a =>
      if stdFive.contains p.1 then
        match getCol df a with
        | some cells => some (p.1, if cells.any isStrCell then 0 else sumQ cells)
        | none => some (p.1, 0)
      else none
    | none => none)

/-- First-occurrence deduplication (pandas `Series.unique()`). -/
def dedupFirst (l : List String) : List String :=
  l.foldl (fun acc x => if acc.contains x then acc else acc ++ [x]) []

/-- Lexicographic code-point comparison (Python `<` on strings). -/
def strLtCL : List Char → List Char → Bool
  | [], [] => false
  | [], _ :: _ => true
  | _ :: _, [] => false
  | a :: as, b :: bs => if a < b then true else if b < a then false else strLtCL as bs

def strLt (a b : String) : Bool := strLtCL a.data b.data

/-- Ascending sort on strings (Python `sorted`, code-point order). -/
def sortStr (l : List String) : List String :=
  List.insertionSort (fun a b => strLt b a = false) l

/-- `get_all_campaign_names` (metrics_calculator.py 139-153): sorted unique
campaign names; any exception (missing column, non-string values making
`sorted` raise) yields `[]`. -/
def get_all_campaign_names (df : DF) (m : Mapping) : List String :=
  match mapLookup m "campaign_name" with
  | none => []
  | some c =>
    match getCol df c with
    | none => []
    | some cells =>
      if cells.all isStrCell then sortStr (dedupFirst (cells.filterMap cellStr)) else []

/-! ## Row-level metrics (`add_row_level_metrics`, metrics_calculator.py 177-213) -/

/-- `series.replace({0: pd.NA})` on one cell. -/
def replaceZeroNA : Cell → Cell
  | .num q => if q = 0 then .na else .num q
  | c => c

/-- pandas elementwise division: `NA` (and non-numeric cells) propagate. -/
def cellDiv : Cell → Cell → Cell
  | .num a, .num b => .num (a / b)
  | _, _ => .na

/-- pandas `.mul(100)`: `NA` propagates. -/
def cellMul100 : Cell → Cell
  | .num a => .num (a * 100)
  | _ => .na

/-- One cell of a zero-guarded ratio column: `num.div(den.replace({0: NA}))`. -/
def guardedRatioCell (a b : Cell) : Cell := cellDiv a (replaceZeroNA b)

/-- A derived metric column: elementwise guarded ratio, optionally `.mul(100)`. -/
def ratioColumn (scale100 : Bool) (num den : List Cell) : List Cell :=
  (List.zipWith guardedRatioCell num den).map (fun c => if scale100 then cellMul100 c else c)

/-- `has_columns`: the standard name is mapped and the physical column exists. -/
def hasMapped (df : DF) (m : Mapping) (std : String) : Option (List Cell) :=
  (mapLookup m std).bind (getCol df)

def addMetricCol (df : DF) (m : Mapping) (name numStd denStd : String)
    (scale100 : Bool) : DF :=
  match hasMapped df m numStd, hasMapped df m denStd with
  | some num, some den => putCol df name (ratioColumn scale100 num den)
  | _, _ => df

/-- `add_row_level_metrics` (metrics_calculator.py 177-213): appends the five
`metric_` columns, each a zero-guarded elementwise ratio, to a copy of the
DataFrame. -/
def add_row_level_metrics (df : DF) (m : Mapping) : DF :=
  let d1 := addMetricCol df m "metric_ctr" "clicks" "impressions" true
  let d2 := addMetricCol d1 m "metric_cpc" "cost" "clicks" false
  let d3 := addMetricCol d2 m "metric_cpa" "cost" "conversions" false
  let d4 := addMetricCol d3 m "metric_roas" "revenue" "cost" false
  let d5 := addMetricCol d4 m "metric_cvr" "conversions" "clicks" true
  d5

/-! ## Date range (`get_date_range`, metrics_calculator.py 156-174)

`pd.to_datetime` is an external library call; it is passed in as `parse`,
which either converts the whole column to datetimes or fails (`none` = the
call raised, in which case the assignment back into the DataFrame never
happens).  The source formats the min/max as date strings; the model returns
the min/max datetime values themselves. -/

def get_date_range (parse : List Cell → Option (List Int)) (df : DF) (m : Mapping) :
    Option (Int × Int) × DF :=
  match mapLookup m "date" with
  | none => (none, df)
  | some dcol =>
    match getCol df dcol with
    | none => (none, df)
    | some vals =>
      match parse vals with
      | none => (none, df)
      | some parsed =>
        let df2 := setCol df dcol (parsed.map Cell.dt)
        match parsed.min?, parsed.max? with
        | some a, some b => (some (a, b), df2)
        | _, _ => (none, df2)

/-- Concrete stand-in for `pandas.to_datetime` used in closed instances:
parses a cell that is a string of decimal digits (a date in `YYYYMMDD`
shape), and raises (`none`) on anything else — as `pd.to_datetime` does on
text such as `"garbage"`. -/
def digitsToNat : List Char → Option Nat
  | [] => none
  | l => l.foldl (fun acc c =>
      acc.bind (fun n => if '0' ≤ c && c ≤ '9' then some (n * 10 + (c.toNat - 48)) else none))
      (some 0)

def modelParse (cells : List Cell) : Option (List Int) :=
  cells.mapM (fun c =>
    match c with
    | .str s => (digitsToNat s.data).map Int.ofNat
    | _ => none)

/-! ## Campaign grouping (pandas `groupby` / the SQL `GROUP BY` query) -/

/-- Sum of the values of `vals` at the rows whose campaign cell is `.str k`
(`groupby(...).agg('sum')` with default `skipna`). -/
def groupSum (camp vals : List Cell) (k : String) : ℚ :=
  (List.zip camp vals).foldl
    (fun acc p => if p.1 = Cell.str k then acc + ((cellNum p.2).getD 0) else acc) 0

/-- The grouping keys: distinct string campaign cells, sorted ascending
(pandas `groupby` sorts its keys; `NA` keys are dropped). -/
def groupKeys (camp : List Cell) : List String :=
  sortStr (dedupFirst (camp.filterMap cellStr))

/-- Sum of the column mapped by `std` for campaign `k`: `some` iff `std` is
mapped and the physical column exists in the DataFrame. -/
def sumFor (df : DF) (camp : List Cell) (m : Mapping) (std k : String) : Option ℚ :=
  (mapLookup m std).bind (fun a => (getCol df a).map (fun vals => groupSum camp vals k))

/-- One row of the campaign breakdown (the SQL result's columns, or the
renamed grouped pandas frame): aggregated sums and derived ratios, each
present only when its source columns are available / its guard holds. -/
structure BRow where
  campaign : String
  impressions : Option ℚ
  clicks : Option ℚ
  cost : Option ℚ
  conversions : Option ℚ
  revenue : Option ℚ
  ctr : Option ℚ
  cpc : Option ℚ
  cpa : Option ℚ
  roas : Option ℚ
  cvr : Option ℚ
deriving DecidableEq

/-- Field access by standard name, with `0` for an absent field (used only as
the sort key; the claims' hypotheses keep the key field present). -/
def stdKey (std : String) (r : BRow) : ℚ :=
  (match std with
   | "impressions" => r.impressions
   | "clicks" => r.clicks
   | "cost" => r.cost
   | "conversions" => r.conversions
   | "revenue" => r.revenue
   | _ => none).getD 0

/-- Descending sort by a rational key (SQL `ORDER BY key DESC`, pandas
`sort_values(by=key, ascending=False)`). -/
def sortDescBy {α : Type} (key : α → ℚ) (l : List α) : List α :=
  List.insertionSort (fun a b => key b ≤ key a) l

/-- The `ORDER BY` column chosen by `get_campaign_performance_summary`
(database.py 328-336): cost, else revenue, else clicks, else impressions. -/
def sqlOrderStd (m : Mapping) : Option String :=
  if (mapLookup m "cost").isSome then some "cost"
  else if (mapLookup m "revenue").isSome then some "revenue"
  else if (mapLookup m "clicks").isSome then some "clicks"
  else if (mapLookup m "impressions").isSome then some "impressions"
  else none

/-- A `CASE WHEN SUM(den) > 0 THEN SUM(num) * scale / SUM(den) END` column. -/
def caseRatio (num den : Option ℚ) (scale : ℚ) : Option ℚ :=
  match num, den with
  | some n, some d => if 0 < d then some (n * scale / d) else none
  | _, _ => none

def sqlRow (df : DF) (camp : List Cell) (m : Mapping) (k : String) : BRow :=
  let s := fun std => sumFor df camp m std k
  { campaign := k
    impressions := s "impressions"
    clicks := s "clicks"
    cost := s "cost"
    conversions := s "conversions"
    revenue := s "revenue"
    ctr := caseRatio (s "clicks") (s "impressions") 100
    cpc := caseRatio (s "cost") (s "clicks") 1
    cpa := caseRatio (s "cost") (s "conversions") 1
    roas := caseRatio (s "revenue") (s "cost") 1
    cvr := caseRatio (s "conversions") (s "clicks") 100 }

/-- The grouped, aggregated rows of the campaign-summary query. -/
def sqlGroupRows (m : Mapping) (df : DF) (campCol : String) : List BRow :=
  (groupKeys ((getCol df campCol).getD [])).map
    (sqlRow df ((getCol df campCol).getD []) m)

/-- The `ORDER BY` step of the campaign-summary query. -/
def sortedSqlRows (m : Mapping) (df : DF) (campCol : String) : List BRow :=
  match sqlOrderStd m with
  | some std => sortDescBy (stdKey std) (sqlGroupRows m df campCol)
  | none => sqlGroupRows m df campCol

/-- The `LIMIT` step (`if limit and limit > 0`). -/
def limitRows (limit : Nat) (l : List BRow) : List BRow :=
  if 0 < limit then l.take limit else l

/-- `get_campaign_performance_summary` (database.py 257-341): the semantics
of the aggregate query the method builds and runs through `execute_sql` on
the stored table, given that the store is reachable.  `GROUP BY` campaign
with per-group sums and zero-guarded `CASE` ratios; `ORDER BY` the first
available of cost/revenue/clicks/impressions, descending; `LIMIT limit` when
`limit > 0`.  A mapped column that does not exist in the stored table makes
SQLite fail, which `execute_sql` surfaces as an execution error. -/
def get_campaign_performance_summary (m : Mapping) (df : DF) (limit : Nat) :
    Option (List BRow) × Option String :=
  match mapLookup m "campaign_name" with
  | none => (none, some "Campaign name column is missing; cannot build campaign summary.")
  | some campCol =>
    if (campCol :: stdFive.filterMap (mapLookup m)).all (fun c => (getCol df c).isSome) then
      (some (limitRows limit (sortedSqlRows m df campCol)), none)
    else
      (none, some "SQL execution error: no such column")

/-! ## `get_sql_campaign_breakdown` (llm_client.py 67-131) -/

/-- `_serialize_campaign_records` (llm_client.py 50-64): round every numeric
field to 3 decimals; `pd.NA` (absent) fields stay absent. -/
def round3Row (r : BRow) : BRow :=
  { campaign := r.campaign
    impressions := r.impressions.map round3
    clicks := r.clicks.map round3
    cost := r.cost.map round3
    conversions := r.conversions.map round3
    revenue := r.revenue.map round3
    ctr := r.ctr.map round3
    cpc := r.cpc.map round3
    cpa := r.cpa.map round3
    roas := r.roas.map round3
    cvr := r.cvr.map round3 }

/-- The standard names aggregated by the pandas fallback: mapped AND present
in the DataFrame (`actual_col in df.columns`), in `stdFive` order. -/
def fbAggStds (df : DF) (m : Mapping) : List String :=
  stdFive.filter (fun std => (hasMapped df m std).isSome)

/-- The fallback's sort column (llm_client.py 120-125): `cost` if present,
else the first of revenue, conversions, clicks, impressions present. -/
def fbOrderStd (stds : List String) : Option String :=
  if stds.contains "cost" then some "cost"
  else ["revenue", "conversions", "clicks", "impressions"].find? (fun s => stds.contains s)

/-- A `grouped[num].div(grouped[den].replace({0: pd.NA})) (* scale)` column
entry of the pandas fallback: guard is `den = 0` only (a negative denominator
still divides). -/
def fbRatio (num den : Option ℚ) (scale : ℚ) : Option ℚ :=
  match num, den with
  | some n, some d => if d = 0 then none else some (n / d * scale)
  | _, _ => none

def fbRow (df : DF) (camp : List Cell) (m : Mapping) (k : String) : BRow :=
  let s := fun std => sumFor df camp m std k
  { campaign := k
    impressions := s "impressions"
    clicks := s "clicks"
    cost := s "cost"
    conversions := s "conversions"
    revenue := s "revenue"
    ctr := fbRatio (s "clicks") (s "impressions") 100
    cpc := fbRatio (s "cost") (s "clicks") 1
    cpa := fbRatio (s "cost") (s "conversions") 1
    roas := fbRatio (s "revenue") (s "cost") 1
    cvr := fbRatio (s "conversions") (s "clicks") 100 }

/-- The grouped, aggregated rows of the pandas fallback. -/
def fbGroupRows (df : DF) (m : Mapping) (campCol : String) : List BRow :=
  (groupKeys ((getCol df campCol).getD [])).map
    (fbRow df ((getCol df campCol).getD []) m)

/-- The `sort_values(by=sort_col, ascending=False)` step of the fallback. -/
def sortedFbRows (df : DF) (m : Mapping) (campCol : String) : List BRow :=
  match fbOrderStd (fbAggStds df m) with
  | some std => sortDescBy (stdKey std) (fbGroupRows df m campCol)
  | none => fbGroupRows df m campCol

/-- `get_sql_campaign_breakdown` (llm_client.py 67-131).  `sqlOut` is the
outcome of the structured-store call `db.get_campaign_performance_summary`
(made explicit because the store may be unreachable); on its failure the
in-process pandas `groupby` fallback aggregates the raw DataFrame, computes
the derived ratios, sorts by `fbOrderStd` descending and serializes
`head(limit)`, still reporting the store's error alongside. -/
def get_sql_campaign_breakdown (sqlOut : Option (List BRow) × Option String)
    (df : DF) (m : Mapping) (limit : Nat) : Option (List BRow) × Option String :=
  match sqlOut.1 with
  | some rows => (some (rows.map round3Row), none)
  | none =>
    match mapLookup m "campaign_name" with
    | none =>
      (none, some ((sqlOut.2).getD
        "Could not aggregate campaign performance (missing campaign column)."))
    | some campCol =>
      match getCol df campCol with
      | none =>
        (none, some ((sqlOut.2).getD
          "Could not aggregate campaign performance (missing campaign column)."))
      | some _ =>
        if fbAggStds df m = [] then
          (none, some ((sqlOut.2).getD
            "Could not aggregate campaign performance (missing campaign column)."))
        else
          (some (((sortedFbRows df m campCol).take limit).map round3Row), sqlOut.2)

/-! ## `get_campaign_summary` (metrics_calculator.py 89-136) -/

/-- One entry of the top-campaigns list. -/
structure CampEntry where
  name : String
  impressions : Option ℚ
  clicks : Option ℚ
  cost : Option ℚ
  conversions : Option ℚ
  revenue : Option ℚ
  cpc : Option ℚ
  ctr : Option ℚ
  roas : Option ℚ
deriving DecidableEq

def campEntry (df : DF) (camp : List Cell) (m : Mapping) (k : String) : CampEntry :=
  let s := fun std => sumFor df camp m std k
  let cost := s "cost"
  let clicks := s "clicks"
  let impressions := s "impressions"
  let revenue := s "revenue"
  { name := k
    impressions := impressions
    clicks := clicks
    cost := cost
    conversions := s "conversions"
    revenue := revenue
    cpc :=
      match cost, clicks with
      | some c, some cl => if cl > 0 then some (round2 (c / cl)) else none
      | _, _ => none
    ctr :=
      match clicks, impressions with
      | some cl, some im => if im > 0 then some (round2 (cl / im * 100)) else none
      | _, _ => none
    roas :=
      match revenue, cost with
      | some rv, some c => if c > 0 then some (round2 (rv / c)) else none
      | _, _ => none }

/-- `get_campaign_summary` (metrics_calculator.py 89-136): groups by campaign
(pandas sorts the group keys alphabetically), then iterates
`campaign_df.head(top_n)` — the first `top_n` groups in key order, with NO
sort by any metric — building each entry's sums and guarded CPC/CTR/ROAS. -/
def get_campaign_summary (df : DF) (m : Mapping) (top_n : Nat) : List CampEntry :=
  match mapLookup m "campaign_name" with
  | none => []
  | some campCol =>
    let aggStds := stdFive.filter (fun std => (mapLookup m std).isSome)
    if aggStds = [] then []
    else
      match getCol df campCol with
      | none => []
      | some camp => ((groupKeys camp).take top_n).map (campEntry df camp m)

/-! ## Context summary (`create_compact_summary`, llm_client.py 134-159) -/

structure Summary where
  totals : List (String × ℚ)
  metrics : List (String × ℚ)
  all_campaign_names : List String
  top_campaigns : List CampEntry
  date_range : Option (Int × Int)
  total_rows : Nat
  campaign_breakdown : List BRow
  campaign_breakdown_error : Option String
deriving DecidableEq

/-- `create_compact_summary` (llm_client.py 134-159).  `parse` models
`pd.to_datetime`; `sqlOut` models the structured-store call made inside
`get_sql_campaign_breakdown`.  Returns the summary together with the
DataFrame as it is left after the call (`get_date_range` mutates the date
column of the caller's DataFrame in place; the breakdown then sees the
mutated frame). -/
def create_compact_summary (parse : List Cell → Option (List Int))
    (sqlOut : Option (List BRow) × Option String) (df : DF) (m : Mapping) :
    Summary × DF :=
  let aggregates := get_aggregate_metrics df m
  let computed := compute_all_metrics df m
  let top := get_campaign_summary df m 5
  let names := get_all_campaign_names df m
  let dr := get_date_range parse df m
  let bd := get_sql_campaign_breakdown sqlOut dr.2 m 25
  ({ totals := aggregates
     metrics := computed.filterMap (fun p => p.2.map (fun v => (p.1, v)))
     all_campaign_names := names
     top_campaigns := top.take 5
     date_range := dr.1
     total_rows := numRows df
     campaign_breakdown := (bd.1).getD []
     campaign_breakdown_error := bd.2 }, dr.2)

/-! ## Tabular store execution (`execute_sql`, database.py 200-255) -/

def missingTableError : String :=
  "Table \x27campaign_data\x27 does not exist in database. Please upload a CSV file first."

def execErrorMsg (e : String) : String := "SQL execution error: " ++ e

/-- `execute_sql` (database.py 200-255): first checks `sqlite_master` for the
table; if missing, returns the named missing-table error without running the
query.  Otherwise `engineRun` is the outcome of `pd.read_sql_query` on the
engine (`.error e` = it raised with message `e`); an exception is caught and
normalized to the `"SQL execution error: "` message.  The call always
returns an (result, error) pair. -/
def execute_sql (tableExists : Bool)
    (engineRun : Except String (List (List Cell))) :
    Option (List (List Cell)) × Option String :=
  if tableExists then
    match engineRun with
    | .ok rows => (some rows, none)
    | .error e => (none, some (execErrorMsg e))
  else
    (none, some missingTableError)

/-! ## Router (`query_with_sql`, `format_sql_result`, `process_query`) -/

/-- `format_sql_result` (sql_query_generator.py 254-268): `None` or an empty
frame renders as `"No results found."`; a non-empty frame as a markdown table
(rendering abbreviated — every claim depends only on the empty/non-empty
distinction, and the rendering of a non-empty frame is never the empty
string). -/
def format_sql_result (r : Option (List (List Cell))) : String :=
  match r with
  | none => "No results found."
  | some rows =>
    if rows.isEmpty then "No results found."
    else "| markdown table: " ++ toString rows.length ++ " rows |"

/-- `query_with_sql` (sql_query_generator.py 271-323): `genOut` is the result
of `generate_sql_from_nl` and `execOut` the outcome of `execute_sql_query`
for the generated query. -/
def query_with_sql (genOut : Option String)
    (execOut : Except String (List (List Cell))) : Option String × Option String :=
  match genOut with
  | none => (none, some "Could not generate SQL query from question")
  | some _ =>
    match execOut with
    | .error e => (none, some e)
    | .ok rows => (some (format_sql_result (some rows)), none)

/-- Python `f"...{x}..."` interpolation of an `Optional[str]`. -/
def optStr : Option String → String
  | some s => s
  | none => "None"

/-- The fallback branch of `process_query` (llm_client.py 246-255): build the
summary, call the narrative generator with the original question; on success
prepend the visible failure note, on failure combine both error strings. -/
def processFallback {α : Type} (question : String) (summary : α)
    (narrate : String → α → Except String String) (sqlError : Option String) :
    Option String × Option String :=
  match narrate question summary with
  | .ok t =>
    (some ("⚠️ *Note: Direct SQL query failed (" ++ optStr sqlError ++
      "), using AI analysis instead.*\n\n" ++ t), none)
  | .error e =>
    (none, some ("SQL query failed: " ++ optStr sqlError ++ ". LLM also failed: " ++ e))

/-- `process_query` (llm_client.py 216-264).  `summary` stands for the value
`create_compact_summary(df, column_mapping)` computed in the fallback and
analysis branches, and `narrate` for `query_gemini` (`.error` = it raised).
A truthy (non-`None`, non-empty) SQL result is returned directly; otherwise
the narrative fallback runs. -/
def process_query {α : Type} (question : String) (genOut : Option String)
    (execOut : Except String (List (List Cell))) (summary : α)
    (narrate : String → α → Except String String) : Option String × Option String :=
  if is_data_retrieval_query question then
    match query_with_sql genOut execOut with
    | (some s, err) =>
      if s = "" then processFallback question summary narrate err else (some s, none)
    | (none, err) => processFallback question summary narrate err
  else
    match narrate question summary with
    | .ok t => (some t, none)
    | .error e => (none, some e)

/-! ## Helper lemmas -/

theorem setCol_cons (p : String × List Cell) (df : DF) (c : String) (v : List Cell) :
    setCol (p :: df) c v = (if p.1 = c then (p.1, v) else p) :: setCol df c v := rfl

theorem getCol_setCol_ne (df : DF) (c c' : String) (v : List Cell) (h : c' ≠ c) :
    getCol (setCol df c v) c' = getCol df c' := by
  induction df with
  | nil => rfl
  | cons p df ih =>
    rw [setCol_cons]
    by_cases h1 : p.1 = c
    · have h3 : ¬ c = c' := fun hx => h (Eq.symm hx)
      simp [getCol, h1, h3, ih]
    · simp [getCol, h1, ih]

theorem getCol_setCol_self (df : DF) (c : String) (v : List Cell)
    (h : (getCol df c).isSome) : getCol (setCol df c v) c = some v := by
  induction df with
  | nil => simp [getCol] at h
  | cons p df ih =>
    rw [setCol_cons]
    by_cases h1 : p.1 = c
    · simp [getCol, h1]
    · simp only [getCol, if_neg h1] at h
      simp [getCol, h1]
      exact ih h

theorem getCol_append_single (df : DF) (c c' : String) (v : List Cell) :
    getCol (df ++ [(c, v)]) c' =
      (match getCol df c' with
       | some w => some w
       | none => if c = c' then some v else none) := by
  induction df with
  | nil => rfl
  | cons p df ih =>
    by_cases h1 : p.1 = c'
    · simp [getCol, h1]
    · simp [getCol, h1, ih]

theorem getCol_putCol_self (df : DF) (c : String) (v : List Cell) :
    getCol (putCol df c v) c = some v := by
  unfold putCol
  by_cases h : (getCol df c).isSome
  · simp only [h, if_true]
    exact getCol_setCol_self df c v h
  · simp only [h, if_false, Bool.false_eq_true]
    rw [getCol_append_single]
    rcases h2 : getCol df c with _ | w
    · simp
    · rw [h2] at h; simp at h

theorem getCol_putCol_ne (df : DF) (c c' : String) (v : List Cell) (h : c' ≠ c) :
    getCol (putCol df c v) c' = getCol df c' := by
  unfold putCol
  by_cases h1 : (getCol df c).isSome
  · simp only [h1, if_true]
    exact getCol_setCol_ne df c c' v h
  · simp only [h1, if_false, Bool.false_eq_true]
    rw [getCol_append_single]
    rcases h2 : getCol df c' with _ | w
    · simp [h2]
      exact fun hx => h (Eq.symm hx)
    · simp [h2]

theorem getCol_addMetricCol_ne (df : DF) (m : Mapping) (name nS dS : String)
    (sc : Bool) (c' : String) (h : c' ≠ name) :
    getCol (addMetricCol df m name nS dS sc) c' = getCol df c' := by
  unfold addMetricCol
  rcases hasMapped df m nS with _ | num
  · rfl
  · rcases hasMapped df m dS with _ | den
    · rfl
    · exact getCol_putCol_ne df name c' _ h

theorem sorted_sortDescBy {α : Type} (key : α → ℚ) (l : List α) :
    List.Sorted (fun a b => key b ≤ key a) (sortDescBy key l) := by
  haveI : IsTotal α (fun a b => key b ≤ key a) := ⟨fun a b => le_total (key b) (key a)⟩
  haveI : IsTrans α (fun a b => key b ≤ key a) := ⟨fun a b c h1 h2 => le_trans h2 h1⟩
  exact List.sorted_insertionSort (fun a b => key b ≤ key a) l

theorem sorted_take {α : Type} {r : α → α → Prop} {l : List α}
    (h : List.Sorted r l) (n : Nat) : List.Sorted r (l.take n) :=
  List.Pairwise.sublist (List.take_sublist n l) h

theorem round3_zero : round3 0 = 0 := by
  unfold round3
  norm_num

theorem round3_mono {x y : ℚ} (h : x ≤ y) : round3 x ≤ round3 y := by
  unfold round3
  have h1 : round (x * 1000) ≤ round (y * 1000) := by
    rw [round_eq, round_eq]
    exact Int.floor_le_floor (by linarith)
  rw [div_eq_mul_inv, div_eq_mul_inv]
  exact mul_le_mul_of_nonneg_right (by exact_mod_cast h1) (by norm_num)

theorem stdKey_round3Row (std : String) (r : BRow) :
    stdKey std (round3Row r) = round3 (stdKey std r) := by
  have hopt : ∀ o : Option ℚ, ((o.map round3).getD 0) = round3 (o.getD 0) := by
    intro o
    cases o with
    | none => simp [round3_zero]
    | some v => simp
  unfold stdKey round3Row
  split <;> simp [hopt, round3_zero]

/-! ## Claim C1 -/

/-- Claim C1: for every text returned by the text-generation service, after
stripping code-fence markup and trimming whitespace, if the result does not
case-insensitively begin with SELECT then `generate_sql_from_nl` returns
`none` — not the text and not a fault — for any input text, including
adversarial text containing destructive statements. -/
theorem C1_select_gate (key : Option String) (resp : Except String String)
    (text : String) (hresp : resp = .ok text)
    (hsel : startsWithSelectCI (cleanSqlText text.data) = false) :
    generate_sql_from_nl key resp = none := by
  subst hresp
  cases key with
  | none => rfl
  | some k => simp [generate_sql_from_nl, hsel]

/-- Witness for C1 at an adversarial destructive statement wrapped in a
code fence. -/
theorem C1_select_gate_witness :
    startsWithSelectCI
        (cleanSqlText ("```sql\nDROP TABLE campaign_data; -- destroy".data)) = false ∧
    generate_sql_from_nl (some "api-key")
        (.ok "```sql\nDROP TABLE campaign_data; -- destroy") = none :=
  ⟨by decide, C1_select_gate (some "api-key") _ _ rfl (by decide)⟩

/-! ## Claim C2 -/

/-- Claim C2: any question whose lowercased text contains an analysis-signal
keyword is classified Analysis (`false`), regardless of co-occurring
retrieval-signal words: the analysis check has priority and short-circuits. -/
theorem C2_analysis_priority (q : String) (h : analysisSignal (normQ q) = true) :
    is_data_retrieval_query q = false := by
  simp [is_data_retrieval_query, h]

/-- Witness for C2: a question that carries both an analysis keyword
("compare") and several whole-word retrieval signals ("show", "all",
"total") is still classified Analysis. -/
theorem C2_analysis_priority_witness :
    analysisSignal (normQ "compare and show all total clicks") = true ∧
    retrievalSignal (normQ "compare and show all total clicks") = true ∧
    is_data_retrieval_query "compare and show all total clicks" = false :=
  ⟨by decide, by decide,
    C2_analysis_priority "compare and show all total clicks" (by decide)⟩

/-! ## Claim C7 -/

/-- Claim C7: when no analysis-signal keyword occurs, the classifier returns
Retrieval exactly when one of the word-boundary retrieval patterns matches;
when neither matches the default is Analysis (`false`). -/
theorem C7_retrieval_iff (q : String) (h : analysisSignal (normQ q) = false) :
    (is_data_retrieval_query q = true ↔ retrievalSignal (normQ q) = true) ∧
    (retrievalSignal (normQ q) = false → is_data_retrieval_query q = false) := by
  constructor
  · simp [is_data_retrieval_query, h]
  · intro hr
    simp [is_data_retrieval_query, h, hr]

/-- Witness for C7: "show me all campaigns" (no analysis keyword, whole-word
retrieval signals) is Retrieval; "they were clicking around" (no analysis
keyword, and no whole-word retrieval signal — "clicking" does not match a
"click"-style token) defaults to Analysis. -/
theorem C7_retrieval_iff_witness :
    analysisSignal (normQ "show me all campaigns") = false ∧
    is_data_retrieval_query "show me all campaigns" = true ∧
    analysisSignal (normQ "they were clicking around") = false ∧
    is_data_retrieval_query "they were clicking around" = false :=
  ⟨by decide,
    ((C7_retrieval_iff "show me all campaigns" (by decide)).1).mpr (by decide),
    by decide,
    (C7_retrieval_iff "they were clicking around" (by decide)).2 (by decide)⟩

/-! ## Claim C8 -/

/-- Claim C8: running a query when the persisted table does not exist returns
no rows with the named missing-table error, independently of the engine (no
execution is attempted); a failing query against an existing table returns
the distinct execution-error message; a succeeding query returns its rows;
in all cases an (result, error) pair is returned, never a raised fault. -/
theorem C8_error_distinction (engineRun : Except String (List (List Cell)))
    (e : String) :
    execute_sql false engineRun = (none, some missingTableError) ∧
    execute_sql true (.error e) = (none, some (execErrorMsg e)) ∧
    execErrorMsg e ≠ missingTableError ∧
    (∀ rows, execute_sql true (.ok rows) = (some rows, none)) := by
  refine ⟨rfl, rfl, ?_, fun rows => rfl⟩
  cases e with
  | mk l =>
    intro h
    have h2 : (execErrorMsg (String.mk l)).data = missingTableError.data :=
      congrArg String.data h
    have h3 : (some 'S' : Option Char) = some 'T' := congrArg List.head? h2
    exact absurd h3 (by decide)

/-! ## Claim C9 -/

/-- Claim C9: a Retrieval-classified question whose generated query executes
successfully but returns zero rows yields the final answer
`"No results found."` with no error; the narrative fallback is not invoked
(the result is independent of the narrative generator). -/
theorem C9_empty_result_is_success {α : Type} (q sql : String) (summary : α)
    (narrate : String → α → Except String String)
    (h : is_data_retrieval_query q = true) :
    process_query q (some sql) (.ok ([] : List (List Cell))) summary narrate =
      (some "No results found.", none) := by
  simp only [process_query, h, if_true, query_with_sql, format_sql_result,
    List.isEmpty_nil]
  rw [if_neg (by decide)]

/-- Witness for C9: even with a narrative generator that would fail, the
empty-but-successful retrieval short-circuits with "No results found.". -/
theorem C9_empty_result_is_success_witness :
    is_data_retrieval_query "show all campaigns" = true ∧
    process_query "show all campaigns" (some "SELECT * FROM campaign_data WHERE 0")
        (.ok ([] : List (List Cell))) ()
        (fun _ _ => .error "LLM unavailable") = (some "No results found.", none) :=
  ⟨by decide,
    C9_empty_result_is_success "show all campaigns"
      "SELECT * FROM campaign_data WHERE 0" ()
      (fun _ _ => .error "LLM unavailable") (by decide)⟩

/-! ## Claim C4 -/

/-- Claim C4: when a Retrieval-classified question's translator-or-executor
path fails (no query generated, or execution error), `process_query` invokes
the narrative generator with the original question and the built summary; a
successful narrative is returned prefixed with the visible failure note, and
a failing narrative yields a single combined error string reporting both
failures; neither failure escapes as an unhandled fault (the function is
total and returns a pair). -/
theorem C4_fallback_composition {α : Type} (q : String) (genOut : Option String)
    (execOut : Except String (List (List Cell))) (summary : α)
    (narrate : String → α → Except String String)
    (hq : is_data_retrieval_query q = true)
    (hfail : (query_with_sql genOut execOut).1 = none) :
    (∀ t, narrate q summary = .ok t →
      process_query q genOut execOut summary narrate =
        (some ("⚠️ *Note: Direct SQL query failed (" ++
          optStr (query_with_sql genOut execOut).2 ++
          "), using AI analysis instead.*\n\n" ++ t), none)) ∧
    (∀ e, narrate q summary = .error e →
      process_query q genOut execOut summary narrate =
        (none, some ("SQL query failed: " ++
          optStr (query_with_sql genOut execOut).2 ++
          ". LLM also failed: " ++ e))) := by
  rcases hr : query_with_sql genOut execOut with ⟨r1, r2⟩
  rw [hr] at hfail
  simp only at hfail
  subst hfail
  constructor
  · intro t ht
    simp [process_query, hq, hr, processFallback, ht]
  · intro e he
    simp [process_query, hq, hr, processFallback, he]

/-- Witness for C4 at a concrete failing translation, for both a succeeding
and a failing narrative generator. -/
theorem C4_fallback_composition_witness :
    is_data_retrieval_query "list campaigns" = true ∧
    (query_with_sql none (.error "boom")).1 = none ∧
    process_query "list campaigns" none (.error "boom") ()
        (fun _ _ => .ok "narrative") =
      (some ("⚠️ *Note: Direct SQL query failed (" ++
        optStr (query_with_sql none (.error "boom")).2 ++
        "), using AI analysis instead.*\n\n" ++ "narrative"), none) ∧
    process_query "list campaigns" none (.error "boom") ()
        (fun _ _ => .error "quota") =
      (none, some ("SQL query failed: " ++
        optStr (query_with_sql (none : Option String)
          (.error "boom" : Except String (List (List Cell)))).2 ++
        ". LLM also failed: " ++ "quota")) :=
  ⟨by decide, rfl,
    (C4_fallback_composition "list campaigns" none (.error "boom") ()
      (fun _ _ => .ok "narrative") (by decide) rfl).1 "narrative" rfl,
    (C4_fallback_composition "list campaigns" none (.error "boom") ()
      (fun _ _ => .error "quota") (by decide) rfl).2 "quota" rfl⟩

/-! ## Claim C3 -/

/-- C3 counterexample data: clicks 5, impressions 0 (aggregate denominator
sum is 0). -/
def c3df : DF := [("clicks", [.num 5]), ("impr", [.num 0])]

/-- C3 counterexample data: clicks 10, impressions -5 (negative denominator). -/
def c3dfNeg : DF := [("clicks", [.num 10]), ("impr", [.num (-5)])]

def c3m : Mapping := [("clicks", some "clicks"), ("impressions", some "impr")]

/-- Counterexample to claim C3 as stated: with the impressions sum equal to 0,
the aggregate CTR is the computed value `0` — present in the output, not
absent (`create_compact_summary` keeps every non-`None` metric); and with a
negative per-row denominator the row-level ratio is a computed value
(`-200`), not absent.  The claim asserts absence in both situations. -/
theorem C3_zero_guard_cex :
    compute_metric c3df c3m "CTR" = some 0 ∧
    getCol (add_row_level_metrics c3dfNeg c3m) "metric_ctr" =
      some [Cell.num (-200)] :=
  ⟨by decide, by decide⟩

/-- Claim C3 as amended: (1) a row-level ratio cell whose denominator is `0`
or `NA` is `NA` (absent), and the computation is total (never a
divide-by-zero fault); (2) a negative row-level denominator is NOT guarded:
the ratio is the computed value; (3) under the mapping/presence hypotheses,
`add_row_level_metrics` stores exactly the guarded elementwise ratio column
(shown for `metric_ctr`); (4) an aggregate metric whose denominator sum is
`≤ 0` evaluates to the present value `0` — not an absent entry; a metric is
absent only when a required column is unmapped, missing, or non-numeric. -/
theorem C3_zero_guard_amended :
    (∀ (a d : Cell), d = Cell.num 0 ∨ d = Cell.na → guardedRatioCell a d = Cell.na) ∧
    (∀ (x q : ℚ), q < 0 →
      guardedRatioCell (Cell.num x) (Cell.num q) = Cell.num (x / q)) ∧
    (∀ (df : DF) (m : Mapping) (clCol imCol : String) (clicks impr : List Cell),
      mapLookup m "clicks" = some clCol →
      mapLookup m "impressions" = some imCol →
      getCol df clCol = some clicks →
      getCol df imCol = some impr →
      getCol (add_row_level_metrics df m) "metric_ctr" =
        some (ratioColumn true clicks impr)) ∧
    (∀ (df : DF) (m : Mapping) (name : String) (md : MetricDef) (aN aD : String)
        (cN cD : List Cell),
      metricLookup name = some md →
      mapLookup m md.numCol = some aN →
      mapLookup m md.denCol = some aD →
      getCol df aN = some cN →
      getCol df aD = some cD →
      cN.any isStrCell = false →
      cD.any isStrCell = false →
      sumQ cD ≤ 0 →
      compute_metric df m name = some 0) := by
  refine ⟨?_, ?_, ?_, ?_⟩
  · intro a d h
    have hrep : replaceZeroNA d = Cell.na := by
      rcases h with h | h <;> subst h <;> simp [replaceZeroNA]
    cases a <;> simp [guardedRatioCell, hrep, cellDiv]
  · intro x q hq
    have hne : ¬ (q = 0) := ne_of_lt hq
    simp [guardedRatioCell, replaceZeroNA, hne, cellDiv]
  · intro df m clCol imCol clicks impr h1 h2 h3 h4
    have hm1 : hasMapped df m "clicks" = some clicks := by
      simp [hasMapped, h1, h3]
    have hm2 : hasMapped df m "impressions" = some impr := by
      simp [hasMapped, h2, h4]
    have step : ∀ (d : DF) (nm nS dS : String) (sc : Bool), nm ≠ "metric_ctr" →
        getCol (addMetricCol d m nm nS dS sc) "metric_ctr" = getCol d "metric_ctr" :=
      fun d nm nS dS sc hne =>
        getCol_addMetricCol_ne d m nm nS dS sc "metric_ctr" (fun hx => hne (Eq.symm hx))
    have hd1 : addMetricCol df m "metric_ctr" "clicks" "impressions" true =
        putCol df "metric_ctr" (ratioColumn true clicks impr) := by
      unfold addMetricCol
      rw [hm1, hm2]
    unfold add_row_level_metrics
    rw [step _ "metric_cvr" _ _ _ (by decide), step _ "metric_roas" _ _ _ (by decide),
      step _ "metric_cpa" _ _ _ (by decide), step _ "metric_cpc" _ _ _ (by decide), hd1]
    exact getCol_putCol_self df "metric_ctr" _
  · intro df m name md aN aD cN cD h1 h2 h3 h4 h5 h6 h7 hd
    simp only [compute_metric, h1, h2, h3, h4, h5, h6, h7, Bool.or_self,
      Bool.false_eq_true, if_false]
    have hguard : metricFormula md (sumQ cN) (sumQ cD) = 0 := by
      unfold metricFormula
      rw [if_neg (not_lt.mpr hd)]
    rw [hguard]
    have : round2 0 = 0 := by unfold round2; norm_num
    rw [this]

/-- Witness for the amended C3 at concrete data. -/
theorem C3_zero_guard_amended_witness :
    guardedRatioCell (Cell.num 5) (Cell.num 0) = Cell.na ∧
    guardedRatioCell (Cell.num 10) (Cell.num (-5)) = Cell.num (10 / (-5) : ℚ) ∧
    getCol (add_row_level_metrics c3df c3m) "metric_ctr" =
      some (ratioColumn true [Cell.num 5] [Cell.num 0]) ∧
    compute_metric c3df c3m "CTR" = some 0 :=
  ⟨C3_zero_guard_amended.1 (Cell.num 5) (Cell.num 0) (Or.inl rfl),
    C3_zero_guard_amended.2.1 10 (-5) (by norm_num),
    C3_zero_guard_amended.2.2.1 c3df c3m "clicks" "impr" [Cell.num 5] [Cell.num 0]
      rfl rfl rfl rfl,
    C3_zero_guard_amended.2.2.2 c3df c3m "CTR" ⟨"clicks", "impressions", 100⟩
      "clicks" "impr" [Cell.num 5] [Cell.num 0] rfl rfl rfl rfl rfl rfl rfl
      (by decide)⟩

/-! ## Claim C10 -/

def c10m : Mapping := [("date", some "date"), ("clicks", some "clicks")]

/-- C10 data with a parsable date column. -/
def c10df : DF :=
  [("date", [.str "20240102", .str "20240101"]), ("clicks", [.num 3, .num 4])]

/-- C10 data with an unparsable date column. -/
def c10dfBad : DF := [("date", [.str "garbage"]), ("clicks", [.num 3])]

/-- Counterexample to claim C10 as stated ("after any call ... with a mapped
date column, the caller's dataset object has its date column mutated to
datetime values"): when the date column fails to parse, `pd.to_datetime`
raises before the assignment, so the DataFrame is left completely unchanged —
the date column still holds its original text value, not datetimes. -/
theorem C10_mutation_cex :
    mapLookup c10m "date" = some "date" ∧
    (get_date_range modelParse c10dfBad c10m).2 = c10dfBad ∧
    getCol c10dfBad "date" = some [Cell.str "garbage"] :=
  ⟨rfl, by decide, by decide⟩

/-- Claim C10 as amended: (1) when a date column is mapped, present and its
values parse, `get_date_range` writes the parsed datetime values back into
the dataset's date column in place, and every other column is unchanged;
(2) when parsing raises, the dataset is unchanged; (3) `create_compact_summary`
passes the caller's DataFrame through `get_date_range`, so its caller
observes exactly that mutation. -/
theorem C10_date_mutation_amended :
    (∀ (parse : List Cell → Option (List Int)) (df : DF) (m : Mapping)
        (dcol : String) (vals : List Cell) (parsed : List Int),
      mapLookup m "date" = some dcol →
      getCol df dcol = some vals →
      parse vals = some parsed →
      (get_date_range parse df m).2 = setCol df dcol (parsed.map Cell.dt) ∧
      (∀ c, c ≠ dcol →
        getCol ((get_date_range parse df m).2) c = getCol df c)) ∧
    (∀ (parse : List Cell → Option (List Int)) (df : DF) (m : Mapping)
        (dcol : String) (vals : List Cell),
      mapLookup m "date" = some dcol →
      getCol df dcol = some vals →
      parse vals = none →
      (get_date_range parse df m).2 = df) ∧
    (∀ (parse : List Cell → Option (List Int))
        (sqlOut : Option (List BRow) × Option String) (df : DF) (m : Mapping),
      (create_compact_summary parse sqlOut df m).2 = (get_date_range parse df m).2) := by
  refine ⟨?_, ?_, ?_⟩
  · intro parse df m dcol vals parsed h1 h2 h3
    have hsnd : (get_date_range parse df m).2 = setCol df dcol (parsed.map Cell.dt) := by
      simp only [get_date_range, h1, h2, h3]
      rcases hm : List.min? parsed with _ | a <;>
        rcases hM : List.max? parsed with _ | b <;> simp [hm, hM]
    refine ⟨hsnd, ?_⟩
    intro c hc
    rw [hsnd]
    exact getCol_setCol_ne df dcol c _ hc
  · intro parse df m dcol vals h1 h2 h3
    simp only [get_date_range, h1, h2, h3]
  · intro parse sqlOut df m
    rfl

/-- Witness for the amended C10 at concrete data. -/
theorem C10_date_mutation_amended_witness :
    mapLookup c10m "date" = some "date" ∧
    getCol c10df "date" = some [Cell.str "20240102", Cell.str "20240101"] ∧
    modelParse [Cell.str "20240102", Cell.str "20240101"] =
      some [20240102, 20240101] ∧
    (get_date_range modelParse c10df c10m).2 =
      setCol c10df "date" (([20240102, 20240101] : List Int).map Cell.dt) ∧
    getCol ((get_date_range modelParse c10df c10m).2) "clicks" =
      getCol c10df "clicks" :=
  ⟨rfl, rfl, by decide,
    (C10_date_mutation_amended.1 modelParse c10df c10m "date"
      [Cell.str "20240102", Cell.str "20240101"] [20240102, 20240101]
      rfl rfl (by decide)).1,
    (C10_date_mutation_amended.1 modelParse c10df c10m "date"
      [Cell.str "20240102", Cell.str "20240101"] [20240102, 20240101]
      rfl rfl (by decide)).2 "clicks" (by decide)⟩

/-! ## Claim C6 -/

def c6m : Mapping := [("campaign_name", some "Campaign"), ("cost", some "Cost")]

/-- C6 failing input: six campaigns, alphabetically A..F, with campaign F
carrying by far the largest cost. -/
def c6df : DF :=
  [("Campaign", [.str "A", .str "B", .str "C", .str "D", .str "E", .str "F"]),
   ("Cost", [.num 1, .num 2, .num 3, .num 4, .num 5, .num 100])]

/-- Claim C6 names a code bug: `get_campaign_summary` (whose docstring says
"Get summary of top campaigns by revenue or cost") never sorts by any
metric — it takes `campaign_df.head(top_n)`, i.e. the first `top_n` groups
in alphabetical key order.  On `c6df` with `top_n = 5` the result is the
five alphabetically-first campaigns with costs 1..5, omitting campaign F
whose cost 100 is the largest (visible with `top_n = 6`). -/
theorem C6_top_campaigns_not_sorted :
    ((get_campaign_summary c6df c6m 5).map (fun e => (e.name, e.cost)) =
      [("A", some 1), ("B", some 2), ("C", some 3), ("D", some 4), ("E", some 5)]) ∧
    ((get_campaign_summary c6df c6m 6).map (fun e => (e.name, e.cost)) =
      [("A", some 1), ("B", some 2), ("C", some 3), ("D", some 4), ("E", some 5),
       ("F", some 100)]) :=
  ⟨by decide, by decide⟩

/-! ## Claim C5 -/

def c5m : Mapping := [("campaign_name", some "Campaign"), ("cost", some "Cost")]

/-- C5 concrete data: campaigns X, Y, Z with cost values [50, 200, 10]. -/
def c5df : DF :=
  [("Campaign", [.str "X", .str "Y", .str "Z"]),
   ("Cost", [.num 50, .num 200, .num 10])]

/-- The breakdown rows produced for `c5df` (cost descending). -/
def c5rows : List BRow :=
  [⟨"Y", none, none, some 200, none, none, none, none, none, none, none⟩,
   ⟨"X", none, none, some 50, none, none, none, none, none, none, none⟩,
   ⟨"Z", none, none, some 10, none, none, none, none, none, none, none⟩]

/-- C5 counterexample data: no cost and no revenue column; conversions and
clicks rank the two campaigns in opposite orders. -/
def c5mCC : Mapping :=
  [("campaign_name", some "Campaign"), ("conversions", some "Conv"),
   ("clicks", some "Clicks")]

def c5dfCC : DF :=
  [("Campaign", [.str "A", .str "B"]),
   ("Conv", [.num 1, .num 2]),
   ("Clicks", [.num 100, .num 50])]

/-- Counterexample to claim C5 as stated: with cost and revenue absent and
conversions present, the in-process fallback sorts by CONVERSIONS (B with 2
conversions before A), not by the claimed revenue→clicks→impressions
priority — clicks would rank A (100) before B (50), which is exactly what
the structured-store path does on the same data.  The two paths therefore do
not share the claimed fallback priority. -/
theorem C5_fallback_priority_cex :
    mapLookup c5mCC "cost" = none ∧
    mapLookup c5mCC "revenue" = none ∧
    (((get_sql_campaign_breakdown (none, some "store down") c5dfCC c5mCC 25).1).map
      (fun l => l.map (fun r => (r.campaign, r.conversions, r.clicks))) =
      some [("B", some 2, some 50), ("A", some 1, some 100)]) ∧
    (((get_campaign_performance_summary c5mCC c5dfCC 50).1).map
      (fun l => l.map (fun r => r.campaign)) = some ["A", "B"]) :=
  ⟨rfl, rfl, by decide, by decide⟩

/-- Claim C5 as amended: campaign-breakdown rows are ordered descending by
the selected sort field on both paths ([50, 200, 10] ⇒ [200, 50, 10]); when
cost is absent the structured-store path falls back to revenue, then clicks,
then impressions, while the in-process fallback falls back to revenue, then
CONVERSIONS, then clicks, then impressions (conversions is interposed on the
fallback path only).  Conjuncts: (1) any rows returned by the store path are
sorted descending by the selected field; (2) the store path's selection
priority; (3) any rows returned by the fallback path are sorted descending
by its selected field; (4) the fallback's selection priority; (5)/(6) the
concrete [50, 200, 10] instance on each path. -/
theorem C5_breakdown_ordering_amended :
    (∀ (m : Mapping) (df : DF) (limit : Nat) (std : String) (rows : List BRow),
      sqlOrderStd m = some std →
      (get_campaign_performance_summary m df limit).1 = some rows →
      List.Sorted (fun a b => stdKey std b ≤ stdKey std a) rows) ∧
    (∀ m : Mapping, sqlOrderStd m =
      (["cost", "revenue", "clicks", "impressions"].find?
        (fun s => (mapLookup m s).isSome))) ∧
    (∀ (e : Option String) (df : DF) (m : Mapping) (limit : Nat) (std : String)
        (rows : List BRow),
      fbOrderStd (fbAggStds df m) = some std →
      (get_sql_campaign_breakdown (none, e) df m limit).1 = some rows →
      List.Sorted (fun a b => stdKey std b ≤ stdKey std a) rows) ∧
    (∀ stds : List String, fbOrderStd stds =
      (["cost", "revenue", "conversions", "clicks", "impressions"].find?
        (fun s => stds.contains s))) ∧
    (((get_campaign_performance_summary c5m c5df 50).1).map
      (fun l => l.map (fun r => (r.campaign, r.cost))) =
      some [("Y", some 200), ("X", some 50), ("Z", some 10)]) ∧
    (((get_sql_campaign_breakdown (none, some "store down") c5df c5m 25).1).map
      (fun l => l.map (fun r => (r.campaign, r.cost))) =
      some [("Y", some 200), ("X", some 50), ("Z", some 10)]) := by
  refine ⟨?_, ?_, ?_, ?_, by decide, by decide⟩
  · intro m df limit std rows h1 h2
    rcases hc : mapLookup m "campaign_name" with _ | campCol
    · simp only [get_campaign_performance_summary, hc] at h2
      exact Option.noConfusion h2
    · simp only [get_campaign_performance_summary, hc] at h2
      by_cases hall :
          ((campCol :: stdFive.filterMap (mapLookup m)).all
            fun c => (getCol df c).isSome) = true
      · simp only [hall, if_true, Option.some.injEq] at h2
        subst h2
        unfold limitRows sortedSqlRows
        rw [h1]
        by_cases hl : 0 < limit
        · rw [if_pos hl]
          exact sorted_take (sorted_sortDescBy _ _) _
        · rw [if_neg hl]
          exact sorted_sortDescBy _ _
      · simp only [if_neg hall] at h2
        exact Option.noConfusion h2
  · intro m
    unfold sqlOrderStd
    by_cases h1 : (mapLookup m "cost").isSome = true <;>
      by_cases h2 : (mapLookup m "revenue").isSome = true <;>
        by_cases h3 : (mapLookup m "clicks").isSome = true <;>
          by_cases h4 : (mapLookup m "impressions").isSome = true <;>
            simp [List.find?, h1, h2, h3, h4]
  · intro e df m limit std rows h1 h2
    rcases hc : mapLookup m "campaign_name" with _ | campCol
    · simp only [get_sql_campaign_breakdown, hc] at h2
      exact Option.noConfusion h2
    · simp only [get_sql_campaign_breakdown, hc] at h2
      rcases hcol : getCol df campCol with _ | camp
      · simp only [hcol] at h2
        exact Option.noConfusion h2
      · simp only [hcol] at h2
        by_cases hemp : fbAggStds df m = []
        · simp only [if_pos hemp] at h2
          exact Option.noConfusion h2
        · simp only [if_neg hemp, Option.some.injEq] at h2
          subst h2
          unfold sortedFbRows
          rw [h1]
          have hs : List.Sorted (fun a b => stdKey std b ≤ stdKey std a)
              ((sortDescBy (stdKey std) (fbGroupRows df m campCol)).take limit) :=
            sorted_take (sorted_sortDescBy _ _) _
          refine List.pairwise_map.mpr ?_
          refine hs.imp ?_
          intro a b hab
          rw [stdKey_round3Row, stdKey_round3Row]
          exact round3_mono hab
  · intro stds
    unfold fbOrderStd
    by_cases h1 : "cost" ∈ stds <;>
      by_cases h2 : "revenue" ∈ stds <;>
        by_cases h3 : "conversions" ∈ stds <;>
          by_cases h4 : "clicks" ∈ stds <;>
            by_cases h5 : "impressions" ∈ stds <;>
              simp [List.find?, h1, h2, h3, h4, h5]

/-- Witness for the amended C5 at the concrete [50, 200, 10] data, on both
paths. -/
theorem C5_breakdown_ordering_amended_witness :
    sqlOrderStd c5m = some "cost" ∧
    (get_campaign_performance_summary c5m c5df 50).1 = some c5rows ∧
    List.Sorted (fun a b => stdKey "cost" b ≤ stdKey "cost" a) c5rows ∧
    fbOrderStd (fbAggStds c5df c5m) = some "cost" ∧
    (get_sql_campaign_breakdown (none, some "store down") c5df c5m 25).1 =
      some c5rows :=
  ⟨rfl, by decide,
    C5_breakdown_ordering_amended.1 c5m c5df 50 "cost" c5rows rfl (by decide),
    rfl, by decide⟩

end ReportingChat
